import Mathlib

/-!
Verification of the customer JIRA tracker's record store, mutation façade
and global index, following `local_http_server.py` and
`global_index_manager.py`.  Python dictionaries are modelled as
insertion-ordered association lists, machine timestamps are passed in as
explicit string parameters, and the external title lookup is an explicit
function parameter.
-/

namespace CustomerJira

/-- A per-ticket comment, as in the `TicketComment` pydantic model. -/
structure TicketComment where
  comment : String
  timestamp : String
deriving DecidableEq

/-- A tracked ticket, as in the `CustomerTicket` pydantic model.
`caseID` defaults to the sentinel string `"XXXXXXX"`. -/
structure CustomerTicket where
  key : String
  title : String := ""
  caseID : String := "XXXXXXX"
  added_date : String
  comments : List TicketComment := []
deriving DecidableEq

/-- A full customer record, as in the `CustomerData` pydantic model. -/
structure CustomerData where
  customer : String
  tickets : List CustomerTicket := []
  ticket_keys : List String := []
  notes : String := ""
  last_updated : String := ""
  total_tickets : Int := 0
  total_comments : Int := 0
deriving DecidableEq

/-- `sum(len(ticket.comments) for ticket in tickets)`. -/
def sumComments (tickets : List CustomerTicket) : Int :=
  (tickets.map (fun t => (t.comments.length : Int))).sum

/-- The `for ticket_key in request.ticket_keys` loop of
`add_customer_tickets`: each key not already present in `ticket_keys` is
appended to `ticket_keys` and a fresh ticket (title fetched externally,
sentinel `caseID`) is appended to `tickets`. -/
def addTicketsLoop (fetchTitle : String → String) (now : String) :
    List String → CustomerData → CustomerData
  | [], cd => cd
  | ticket_key :: rest, cd =>
    if ticket_key ∈ cd.ticket_keys then
      addTicketsLoop fetchTitle now rest cd
    else
      addTicketsLoop fetchTitle now rest
        { cd with
          ticket_keys := cd.ticket_keys ++ [ticket_key],
          tickets := cd.tickets ++
            [{ key := ticket_key, title := fetchTitle ticket_key,
               caseID := "XXXXXXX", added_date := now, comments := [] }] }

/-- The `if request.notes:` step of `add_customer_tickets`: overwrite
`notes` only when the optional request notes are present and truthy
(a non-empty string). -/
def applyNotes (req_notes : Option String) (cd : CustomerData) : CustomerData :=
  match req_notes with
  | some n => if n ≠ "" then { cd with notes := n } else cd
  | none => cd

/-- Body of the `add_customer_tickets` endpoint on an in-memory record:
run the add loop, overwrite `notes` when the request carries a truthy
(non-`None`, non-empty) notes string, then recompute both counters and
set `last_updated`. -/
def add_customer_tickets (fetchTitle : String → String) (now : String)
    (req_ticket_keys : List String) (req_notes : Option String)
    (cd : CustomerData) : CustomerData :=
  let cd1 := addTicketsLoop fetchTitle now req_ticket_keys cd
  let cd2 := applyNotes req_notes cd1
  { cd2 with
    total_tickets := (cd2.tickets.length : Int),
    total_comments := sumComments cd2.tickets,
    last_updated := now }

/-- Append a comment to the first ticket whose `key` matches, leaving all
other tickets unchanged (the `for t in customer_data.tickets` search of
`add_ticket_comment` finds the first match and mutates only it). -/
def appendCommentFirst (ticket_key : String) (c : TicketComment) :
    List CustomerTicket → List CustomerTicket
  | [] => []
  | t :: ts =>
    if t.key = ticket_key then { t with comments := t.comments ++ [c] } :: ts
    else t :: appendCommentFirst ticket_key c ts

/-- Body of the `add_ticket_comment` endpoint on an in-memory record:
`none` models the 404 `HTTPException` raised when no ticket has the key
(raised before any mutation or save); otherwise the comment is appended,
`total_comments` is recomputed and `last_updated` set. `total_tickets`
is not touched by this endpoint. -/
def add_ticket_comment (now ticket_key comment_text : String)
    (cd : CustomerData) : Option CustomerData :=
  if cd.tickets.any (fun t => t.key == ticket_key) then
    let new_tickets :=
      appendCommentFirst ticket_key
        { comment := comment_text, timestamp := now } cd.tickets
    some { cd with
           tickets := new_tickets,
           total_comments := sumComments new_tickets,
           last_updated := now }
  else
    none

/-- Body of the `update_customer_notes` endpoint: overwrite `notes`, set
`last_updated`, and nothing else (the counters are not recomputed here). -/
def update_customer_notes (now req_notes : String) (cd : CustomerData) :
    CustomerData :=
  { cd with notes := req_notes, last_updated := now }

/-- Body of the `remove_customer_tickets` endpoint: drop the requested
keys from both `ticket_keys` and `tickets`, then recompute both counters
and set `last_updated`. -/
def remove_customer_tickets (now : String) (req_ticket_keys : List String)
    (cd : CustomerData) : CustomerData :=
  let new_keys := cd.ticket_keys.filter (fun tk => decide (tk ∉ req_ticket_keys))
  let new_tickets := cd.tickets.filter (fun t => decide (t.key ∉ req_ticket_keys))
  { cd with
    ticket_keys := new_keys,
    tickets := new_tickets,
    total_tickets := (new_tickets.length : Int),
    total_comments := sumComments new_tickets,
    last_updated := now }

/-- A stored customer file: either a payload that parses into a record,
or an unreadable/corrupt file. -/
inductive StoredFile where
  | valid (cd : CustomerData)
  | corrupt
deriving DecidableEq

/-- The storage directory, keyed by derived file name. -/
abbrev Store := String → Option StoredFile

/-- `get_customer_file_path`: spaces and path separators are replaced by
underscores to derive the storage key. -/
def safeName (customer_name : String) : String :=
  (customer_name.replace " " "_").replace "/" "_"

/-- The record `CustomerData(customer=..., last_updated=now)` built by
`load_customer_data` for a missing or unreadable file: pydantic defaults
give empty tickets, keys and notes and zero counters. -/
def emptyRecord (customer_name now : String) : CustomerData :=
  { customer := customer_name, tickets := [], ticket_keys := [], notes := "",
    last_updated := now, total_tickets := 0, total_comments := 0 }

/-- `load_customer_data`: return the parsed stored record when the file
exists and parses; otherwise (missing file, or any exception while
reading/parsing) return a fresh empty record for the requested name. -/
def load_customer_data (store : Store) (now customer_name : String) :
    CustomerData :=
  match store (safeName customer_name) with
  | some (StoredFile.valid cd) => cd
  | some StoredFile.corrupt => emptyRecord customer_name now
  | none => emptyRecord customer_name now

/-- `save_customer_data`: overwrite the file derived from the record's
own customer name. -/
def saveStore (store : Store) (cd : CustomerData) : Store :=
  fun p => if p = safeName cd.customer then some (StoredFile.valid cd) else store p

/-- The `GET .../tickets` endpoint: load and return; no save occurs on
this path, so the store component is returned as received. -/
def api_get_customer_tickets (now customer_name : String) (store : Store) :
    CustomerData × Store :=
  (load_customer_data store now customer_name, store)

/-- The `POST .../comments` endpoint at store level: on the 404 path the
exception propagates before `save_customer_data` runs, so the store is
unchanged; on success the updated record is saved. -/
def api_add_ticket_comment (now customer_name ticket_key comment_text : String)
    (store : Store) : Option CustomerData × Store :=
  match add_ticket_comment now ticket_key comment_text
      (load_customer_data store now customer_name) with
  | some cd => (some cd, saveStore store cd)
  | none => (none, store)

/-- One façade mutation, with its external inputs (clock, title lookup,
request payload) frozen into the constructor. -/
inductive FacadeOp where
  | addTickets (fetchTitle : String → String) (now : String)
      (req_ticket_keys : List String) (req_notes : Option String)
  | addComment (now ticket_key comment_text : String)
  | updateNotes (now req_notes : String)
  | removeTickets (now : String) (req_ticket_keys : List String)

/-- Apply one façade mutation to a record; a failed comment-add (404)
saves nothing, leaving the record as it was. -/
def applyOp (op : FacadeOp) (cd : CustomerData) : CustomerData :=
  match op with
  | FacadeOp.addTickets fetchTitle now ks n => add_customer_tickets fetchTitle now ks n cd
  | FacadeOp.addComment now k c => (add_ticket_comment now k c cd).getD cd
  | FacadeOp.updateNotes now n => update_customer_notes now n cd
  | FacadeOp.removeTickets now ks => remove_customer_tickets now ks cd

/-- Apply a sequence of façade mutations in order. -/
def applyOps : List FacadeOp → CustomerData → CustomerData
  | [], cd => cd
  | op :: ops, cd => applyOps ops (applyOp op cd)

/-- The spec's counter invariant on a record at rest. -/
def counterInv (cd : CustomerData) : Prop :=
  cd.total_tickets = (cd.tickets.length : Int) ∧
  cd.total_comments = sumComments cd.tickets

/-- A record producible by some sequence of façade mutations starting
from a fresh empty record. -/
def Reachable (cd : CustomerData) : Prop :=
  ∃ ops customer_name now,
    cd = applyOps ops (emptyRecord customer_name now)

/-! ### Global index (`global_index_manager.py`) -/

/-- The `{key, title, caseID}` projection stored under a customer entry. -/
structure TicketInfo where
  key : String
  title : String
  caseID : String
deriving DecidableEq

/-- A `case_index` entry: owning customer plus accumulated ticket keys. -/
structure CaseEntry where
  customer : String
  tickets : List String
deriving DecidableEq

/-- A `customers` entry: per-customer ticket count and projections. -/
structure IndexCustomerEntry where
  total_tickets : Int
  tickets : List TicketInfo
deriving DecidableEq

/-- The global index document.  The two dictionaries are modelled as
insertion-ordered association lists with unique keys, matching Python
dict semantics. -/
structure GlobalIndex where
  last_updated : String
  total_customers : Int
  total_tickets : Int
  customers : List (String × IndexCustomerEntry)
  case_index : List (String × CaseEntry)
deriving DecidableEq

/-- `_create_empty_index`. -/
def emptyIndex (now : String) : GlobalIndex :=
  { last_updated := now, total_customers := 0, total_tickets := 0,
    customers := [], case_index := [] }

/-- Dictionary lookup on the `case_index` association list. -/
def lookupCI : List (String × CaseEntry) → String → Option CaseEntry
  | [], _ => none
  | p :: ps, c => if p.1 = c then some p.2 else lookupCI ps c

/-- `case_index[case_id]["tickets"].append(key)`: append a ticket key to
the (unique) entry with the given case ID, if any. -/
def ciAppendKey : List (String × CaseEntry) → String → String →
    List (String × CaseEntry)
  | [], _, _ => []
  | p :: ps, case_id, key =>
    if p.1 = case_id then
      (p.1, { p.2 with tickets := p.2.tickets ++ [key] }) :: ps
    else
      p :: ciAppendKey ps case_id key

/-- The `case_index` update for one non-sentinel ticket: create the entry
on first sight (with `customer` set to the record currently being
scanned) and append the ticket key. -/
def caseIndexAdd (ci : List (String × CaseEntry))
    (case_id customer_name key : String) : List (String × CaseEntry) :=
  let ci' :=
    if (lookupCI ci case_id).isNone then
      ci ++ [(case_id, { customer := customer_name, tickets := [] })]
    else ci
  ciAppendKey ci' case_id key

/-- `customers[customer_name] = {...}`: dict assignment — replace the
value at the existing key in place, or append a new entry. -/
def customersSet : List (String × IndexCustomerEntry) → String →
    IndexCustomerEntry → List (String × IndexCustomerEntry)
  | [], customer_name, e => [(customer_name, e)]
  | p :: ps, customer_name, e =>
    if p.1 = customer_name then (p.1, e) :: ps
    else p :: customersSet ps customer_name e

/-- `customers[customer_name]["tickets"].append(ticket_info)`. -/
def customersAppendTicket : List (String × IndexCustomerEntry) → String →
    TicketInfo → List (String × IndexCustomerEntry)
  | [], _, _ => []
  | p :: ps, customer_name, info =>
    if p.1 = customer_name then
      (p.1, { p.2 with tickets := p.2.tickets ++ [info] }) :: ps
    else
      p :: customersAppendTicket ps customer_name info

/-- The body of the `for ticket in tickets` loop of `rebuild_index`:
append the projection under the customer entry, and, when the caseID is
not the sentinel, update the case index. -/
def processTicket (customer_name : String) (idx : GlobalIndex)
    (t : CustomerTicket) : GlobalIndex :=
  let info : TicketInfo := { key := t.key, title := t.title, caseID := t.caseID }
  let idx' := { idx with
    customers := customersAppendTicket idx.customers customer_name info }
  if t.caseID ≠ "XXXXXXX" then
    { idx' with
      case_index := caseIndexAdd idx'.case_index t.caseID customer_name t.key }
  else idx'

/-- Fold of `processTicket` over a record's tickets, in list order. -/
def processTickets (customer_name : String) (idx : GlobalIndex) :
    List CustomerTicket → GlobalIndex
  | [] => idx
  | t :: ts => processTickets customer_name (processTicket customer_name idx t) ts

/-- The `{"total_tickets": len(tickets), "tickets": []}` entry created
for each scanned customer before its tickets are appended. -/
def freshCustomerEntry (cd : CustomerData) : IndexCustomerEntry :=
  { total_tickets := (cd.tickets.length : Int), tickets := [] }

/-- Processing of one scanned customer file inside `rebuild_index`: a
corrupt file is skipped whole (the `except` branch); a valid one gets a
fresh customer entry, has its tickets scanned, and bumps the running
`total_tickets` by its ticket count. -/
def processFile (idx : GlobalIndex) : StoredFile → GlobalIndex
  | StoredFile.corrupt => idx
  | StoredFile.valid cd =>
    let idx1 := { idx with
      customers := customersSet idx.customers cd.customer (freshCustomerEntry cd) }
    let idx2 := processTickets cd.customer idx1 cd.tickets
    { idx2 with total_tickets := idx2.total_tickets + (cd.tickets.length : Int) }

/-- Fold of `processFile` over the scanned files, in scan order. -/
def processFiles (idx : GlobalIndex) : List StoredFile → GlobalIndex
  | [] => idx
  | f :: fs => processFiles (processFile idx f) fs

/-- `rebuild_index`: reset to the empty index, scan every customer file,
then set `total_customers` from the customers dictionary and persist
(which stamps `last_updated`). -/
def rebuild_index (now : String) (files : List StoredFile) : GlobalIndex :=
  let idx := processFiles (emptyIndex now) files
  let idx' := { idx with total_customers := (idx.customers.length : Int) }
  { idx' with last_updated := now }

/-- The `customer` field of the case-index entry for a given case ID. -/
def caseCustomer (ci : List (String × CaseEntry)) (c : String) : Option String :=
  (lookupCI ci c).map CaseEntry.customer

/-- Whether some ticket in the list carries the given case ID. -/
def hasCase : List CustomerTicket → String → Bool
  | [], _ => false
  | t :: ts, c => t.caseID == c || hasCase ts c

/-- The customer name of the first scanned readable record containing a
ticket with the given case ID (the characterisation proved of
`rebuild_index`'s case-entry ownership). -/
def firstCaseCustomer : List StoredFile → String → Option String
  | [], _ => none
  | StoredFile.corrupt :: rest, c => firstCaseCustomer rest c
  | StoredFile.valid cd :: rest, c =>
    if hasCase cd.tickets c then some cd.customer else firstCaseCustomer rest c

/-- The total ticket count over all successfully scanned files — the
quantity the `self.index_data["total_tickets"] += len(tickets)` loop
accumulates. -/
def scannedTicketCount : List StoredFile → Int
  | [] => 0
  | StoredFile.corrupt :: rest => scannedTicketCount rest
  | StoredFile.valid cd :: rest => (cd.tickets.length : Int) + scannedTicketCount rest

/-- The sum of the per-customer ticket counts stored in the `customers`
entries (the quantity the spec equates with the index `total_tickets`). -/
def sumEntryCounts (cs : List (String × IndexCustomerEntry)) : Int :=
  (cs.map (fun p => p.2.total_tickets)).sum

/-! ### Concrete inputs used by witnesses and counterexamples -/

/-- A ticket of customer `A` carrying the real case ID `CASE-1`. -/
def tA : CustomerTicket :=
  { key := "T1", title := "", caseID := "CASE-1", added_date := "d0", comments := [] }

/-- A ticket of customer `B` carrying the same case ID `CASE-1`. -/
def tB : CustomerTicket :=
  { key := "T2", title := "", caseID := "CASE-1", added_date := "d1", comments := [] }

/-- Customer `A`, holding `tA`. -/
def recA : CustomerData :=
  { customer := "A", tickets := [tA], ticket_keys := ["T1"], notes := "",
    last_updated := "d0", total_tickets := 1, total_comments := 0 }

/-- Customer `B`, holding `tB`. -/
def recB : CustomerData :=
  { customer := "B", tickets := [tB], ticket_keys := ["T2"], notes := "",
    last_updated := "d1", total_tickets := 1, total_comments := 0 }

/-- Scan order: `A` first, `B` last; both carry case ID `CASE-1`. -/
def c1files : List StoredFile := [StoredFile.valid recA, StoredFile.valid recB]

/-- A ticket with the sentinel (unassigned) case ID. -/
def tS : CustomerTicket :=
  { key := "T3", title := "", caseID := "XXXXXXX", added_date := "d0", comments := [] }

/-- First of two scanned files that both declare customer name `A`. -/
def recC : CustomerData :=
  { customer := "A", tickets := [tS], ticket_keys := ["T3"], notes := "",
    last_updated := "d0", total_tickets := 1, total_comments := 0 }

/-- Second file declaring customer name `A`, with no tickets. -/
def recD : CustomerData :=
  { customer := "A", tickets := [], ticket_keys := [], notes := "",
    last_updated := "d1", total_tickets := 0, total_comments := 0 }

/-- Two scanned files carrying the same customer name. -/
def dupFiles : List StoredFile := [StoredFile.valid recC, StoredFile.valid recD]

/-- A stored record whose persisted `total_tickets` counter (1) disagrees
with its empty ticket list. -/
def staleRec : CustomerData :=
  { customer := "A", tickets := [], ticket_keys := [], notes := "",
    last_updated := "t0", total_tickets := 1, total_comments := 0 }

/-- A record holding one ticket `K-1` with no comments. -/
def oneTicketRec : CustomerData :=
  { customer := "Acme",
    tickets := [{ key := "K-1", title := "", caseID := "XXXXXXX",
                  added_date := "t0", comments := [] }],
    ticket_keys := ["K-1"], notes := "", last_updated := "t0",
    total_tickets := 1, total_comments := 0 }

/-- Like `oneTicketRec` but with a stale persisted `total_tickets` of 5. -/
def staleRec2 : CustomerData :=
  { customer := "Acme",
    tickets := [{ key := "K-1", title := "", caseID := "XXXXXXX",
                  added_date := "t0", comments := [] }],
    ticket_keys := ["K-1"], notes := "", last_updated := "t0",
    total_tickets := 5, total_comments := 0 }

/-- A storage directory with no files at all. -/
def emptyStore : Store := fun _ => none

/-- A storage directory holding `oneTicketRec` under its derived name. -/
def oneTicketStore : Store := saveStore emptyStore oneTicketRec

/-- A record reached from empty by one add-tickets façade call. -/
def sampleReach : CustomerData :=
  applyOps [FacadeOp.addTickets (fun _ => "") "t1" ["K-1"] none]
    (emptyRecord "Acme" "t0")

/-! ### Helper lemmas: the mutation façade -/

theorem applyNotes_tickets (n : Option String) (cd : CustomerData) :
    (applyNotes n cd).tickets = cd.tickets := by
  cases n with
  | none => rfl
  | some s => by_cases h : s ≠ "" <;> simp [applyNotes, h]

theorem applyNotes_ticket_keys (n : Option String) (cd : CustomerData) :
    (applyNotes n cd).ticket_keys = cd.ticket_keys := by
  cases n with
  | none => rfl
  | some s => by_cases h : s ≠ "" <;> simp [applyNotes, h]

theorem add_customer_tickets_total (f : String → String) (now : String)
    (ks : List String) (n : Option String) (cd : CustomerData) :
    (add_customer_tickets f now ks n cd).total_tickets =
      ((add_customer_tickets f now ks n cd).tickets.length : Int) := rfl

theorem add_customer_tickets_comments (f : String → String) (now : String)
    (ks : List String) (n : Option String) (cd : CustomerData) :
    (add_customer_tickets f now ks n cd).total_comments =
      sumComments (add_customer_tickets f now ks n cd).tickets := rfl

theorem remove_customer_tickets_total (now : String) (ks : List String)
    (cd : CustomerData) :
    (remove_customer_tickets now ks cd).total_tickets =
      ((remove_customer_tickets now ks cd).tickets.length : Int) := rfl

theorem remove_customer_tickets_comments (now : String) (ks : List String)
    (cd : CustomerData) :
    (remove_customer_tickets now ks cd).total_comments =
      sumComments (remove_customer_tickets now ks cd).tickets := rfl

theorem add_ticket_comment_inv {now k c : String} {cd cd' : CustomerData}
    (h : add_ticket_comment now k c cd = some cd') :
    cd' = { cd with
            tickets := appendCommentFirst k { comment := c, timestamp := now } cd.tickets,
            total_comments :=
              sumComments (appendCommentFirst k { comment := c, timestamp := now } cd.tickets),
            last_updated := now } := by
  unfold add_ticket_comment at h
  split at h
  · exact (Option.some.inj h).symm
  · cases h

theorem add_ticket_comment_none {now k c : String} {cd : CustomerData}
    (h : ∀ t ∈ cd.tickets, t.key ≠ k) :
    add_ticket_comment now k c cd = none := by
  unfold add_ticket_comment
  rw [if_neg]
  intro hany
  rcases List.any_eq_true.mp hany with ⟨t, ht, hk⟩
  exact h t ht (by simpa using hk)

theorem add_ticket_comment_isSome (now k c : String) (cd : CustomerData)
    (h : ∃ t ∈ cd.tickets, t.key = k) :
    add_ticket_comment now k c cd =
      some { cd with
             tickets := appendCommentFirst k { comment := c, timestamp := now } cd.tickets,
             total_comments :=
               sumComments (appendCommentFirst k { comment := c, timestamp := now } cd.tickets),
             last_updated := now } := by
  unfold add_ticket_comment
  rw [if_pos]
  exact List.any_eq_true.mpr (by rcases h with ⟨t, ht, hk⟩; exact ⟨t, ht, by simpa using hk⟩)

theorem appendCommentFirst_length (k : String) (c : TicketComment) :
    ∀ ts : List CustomerTicket, (appendCommentFirst k c ts).length = ts.length := by
  intro ts
  induction ts with
  | nil => rfl
  | cons t ts ih =>
    unfold appendCommentFirst
    split
    · simp
    · simpa using ih

theorem sumComments_cons (t : CustomerTicket) (ts : List CustomerTicket) :
    sumComments (t :: ts) = (t.comments.length : Int) + sumComments ts := by
  simp [sumComments]

theorem sumComments_appendCommentFirst (k : String) (c : TicketComment) :
    ∀ ts : List CustomerTicket, (∃ t ∈ ts, t.key = k) →
      sumComments (appendCommentFirst k c ts) = sumComments ts + 1 := by
  intro ts
  induction ts with
  | nil => rintro ⟨t, ht, _⟩; cases ht
  | cons t ts ih =>
    intro h
    unfold appendCommentFirst
    split
    · simp only [sumComments_cons]
      simp only [List.length_append, List.length_singleton]
      push_cast
      ring
    · rename_i hk
      rcases h with ⟨t', ht', hk'⟩
      rcases List.mem_cons.mp ht' with rfl | ht'
      · exact absurd hk' hk
      · simp only [sumComments_cons, ih ⟨t', ht', hk'⟩]
        ring

theorem addTicketsLoop_dup (f : String → String) (now k : String)
    (cd : CustomerData) :
    addTicketsLoop f now [k, k] cd = addTicketsLoop f now [k] cd := by
  by_cases h : k ∈ cd.ticket_keys
  · simp [addTicketsLoop, h]
  · simp [addTicketsLoop, h]

theorem mem_addTicketsLoop_single (f : String → String) (now k : String)
    (cd : CustomerData) :
    k ∈ (addTicketsLoop f now [k] cd).ticket_keys := by
  by_cases h : k ∈ cd.ticket_keys
  · simp [addTicketsLoop, h]
  · simp [addTicketsLoop, h]

theorem addTicketsLoop_skip (f : String → String) (now k : String)
    {cd : CustomerData} (h : k ∈ cd.ticket_keys) :
    addTicketsLoop f now [k] cd = cd := by
  simp [addTicketsLoop, h]

theorem counterInv_add_customer_tickets (f : String → String) (now : String)
    (ks : List String) (n : Option String) (cd : CustomerData) :
    counterInv (add_customer_tickets f now ks n cd) :=
  ⟨rfl, rfl⟩

theorem counterInv_remove_customer_tickets (now : String) (ks : List String)
    (cd : CustomerData) :
    counterInv (remove_customer_tickets now ks cd) :=
  ⟨rfl, rfl⟩

theorem counterInv_update_customer_notes (now n : String) {cd : CustomerData}
    (h : counterInv cd) :
    counterInv (update_customer_notes now n cd) := h

theorem counterInv_addComment (now k c : String) {cd : CustomerData}
    (h : counterInv cd) :
    counterInv ((add_ticket_comment now k c cd).getD cd) := by
  cases hc : add_ticket_comment now k c cd with
  | none => simpa using h
  | some cd' =>
    rw [add_ticket_comment_inv hc]
    refine ⟨?_, rfl⟩
    simp only [Option.getD_some]
    show cd.total_tickets =
      ((appendCommentFirst k { comment := c, timestamp := now } cd.tickets).length : Int)
    rw [appendCommentFirst_length]
    exact h.1

theorem counterInv_applyOp (op : FacadeOp) {cd : CustomerData}
    (h : counterInv cd) :
    counterInv (applyOp op cd) := by
  cases op with
  | addTickets f now ks n => exact counterInv_add_customer_tickets f now ks n cd
  | addComment now k c => exact counterInv_addComment now k c h
  | updateNotes now n => exact counterInv_update_customer_notes now n h
  | removeTickets now ks => exact counterInv_remove_customer_tickets now ks cd

theorem counterInv_applyOps :
    ∀ (ops : List FacadeOp) (cd : CustomerData), counterInv cd →
      counterInv (applyOps ops cd) := by
  intro ops
  induction ops with
  | nil => intro cd h; exact h
  | cons op ops ih => intro cd h; exact ih _ (counterInv_applyOp op h)

theorem addTicketsLoop_sentinel (f : String → String) (now : String) :
    ∀ (ks : List String) (cd : CustomerData),
      (∀ t ∈ cd.tickets, t.caseID = "XXXXXXX") →
      ∀ t ∈ (addTicketsLoop f now ks cd).tickets, t.caseID = "XXXXXXX" := by
  intro ks
  induction ks with
  | nil => intro cd h; exact h
  | cons k ks ih =>
    intro cd h
    unfold addTicketsLoop
    split
    · exact ih cd h
    · apply ih
      intro t ht
      rcases List.mem_append.mp ht with ht | ht
      · exact h t ht
      · rcases List.mem_singleton.mp ht with rfl
        rfl

theorem appendCommentFirst_sentinel (k : String) (c : TicketComment) :
    ∀ ts : List CustomerTicket,
      (∀ t ∈ ts, t.caseID = "XXXXXXX") →
      ∀ t ∈ appendCommentFirst k c ts, t.caseID = "XXXXXXX" := by
  intro ts
  induction ts with
  | nil => intro _ t ht; cases ht
  | cons t0 ts ih =>
    intro h t ht
    unfold appendCommentFirst at ht
    split at ht
    · rcases List.mem_cons.mp ht with rfl | ht
      · exact h t0 (List.mem_cons_self _ _)
      · exact h t (List.mem_cons_of_mem _ ht)
    · rcases List.mem_cons.mp ht with rfl | ht
      · exact h t (List.mem_cons_self _ _)
      · exact ih (fun t' ht' => h t' (List.mem_cons_of_mem _ ht')) t ht

theorem applyOp_sentinel (op : FacadeOp) {cd : CustomerData}
    (h : ∀ t ∈ cd.tickets, t.caseID = "XXXXXXX") :
    ∀ t ∈ (applyOp op cd).tickets, t.caseID = "XXXXXXX" := by
  cases op with
  | addTickets f now ks n =>
    show ∀ t ∈ (add_customer_tickets f now ks n cd).tickets, _
    intro t ht
    have : (add_customer_tickets f now ks n cd).tickets =
        (addTicketsLoop f now ks cd).tickets := applyNotes_tickets _ _
    rw [this] at ht
    exact addTicketsLoop_sentinel f now ks cd h t ht
  | addComment now k c =>
    show ∀ t ∈ ((add_ticket_comment now k c cd).getD cd).tickets, _
    cases hc : add_ticket_comment now k c cd with
    | none => simpa using h
    | some cd' =>
      rw [add_ticket_comment_inv hc]
      simpa using appendCommentFirst_sentinel k _ cd.tickets h
  | updateNotes now n => exact h
  | removeTickets now ks =>
    show ∀ t ∈ (remove_customer_tickets now ks cd).tickets, _
    intro t ht
    exact h t (List.mem_filter.mp ht).1

theorem applyOps_sentinel :
    ∀ (ops : List FacadeOp) (cd : CustomerData),
      (∀ t ∈ cd.tickets, t.caseID = "XXXXXXX") →
      ∀ t ∈ (applyOps ops cd).tickets, t.caseID = "XXXXXXX" := by
  intro ops
  induction ops with
  | nil => intro cd h; exact h
  | cons op ops ih => intro cd h; exact ih _ (applyOp_sentinel op h)

theorem reachable_sentinel {cd : CustomerData} (h : Reachable cd) :
    ∀ t ∈ cd.tickets, t.caseID = "XXXXXXX" := by
  rcases h with ⟨ops, name, now, rfl⟩
  exact applyOps_sentinel ops _ (by intro t ht; cases ht)

/-! ### Helper lemmas: the rebuild scan -/

theorem isSome_caseCustomer (ci : List (String × CaseEntry)) (c : String) :
    (caseCustomer ci c).isSome = (lookupCI ci c).isSome := by
  cases h : lookupCI ci c <;> simp [caseCustomer, h]

theorem caseCustomer_ciAppendKey (cid k c : String) :
    ∀ ci, caseCustomer (ciAppendKey ci cid k) c = caseCustomer ci c := by
  intro ci
  induction ci with
  | nil => rfl
  | cons p ps ih =>
    unfold ciAppendKey
    by_cases h : p.1 = cid
    · rw [if_pos h]
      by_cases h2 : p.1 = c
      · simp [caseCustomer, lookupCI, h2]
      · simp [caseCustomer, lookupCI, h2]
    · rw [if_neg h]
      by_cases h2 : p.1 = c
      · simp [caseCustomer, lookupCI, h2]
      · simp only [caseCustomer, lookupCI, if_neg h2]
        simpa [caseCustomer] using ih

theorem caseCustomer_append_single (cid c : String) (e : CaseEntry) :
    ∀ ci, caseCustomer (ci ++ [(cid, e)]) c =
      if (lookupCI ci c).isSome then caseCustomer ci c
      else if c = cid then some e.customer else none := by
  intro ci
  induction ci with
  | nil =>
    by_cases h : cid = c
    · subst h; simp [caseCustomer, lookupCI]
    · have h' : ¬(c = cid) := fun hh => h hh.symm
      simp [caseCustomer, lookupCI, h, h']
  | cons p ps ih =>
    rw [List.cons_append]
    by_cases h : p.1 = c
    · simp [caseCustomer, lookupCI, h]
    · simp only [caseCustomer, lookupCI, if_neg h]
      simpa [caseCustomer] using ih

theorem caseCustomer_caseIndexAdd (ci : List (String × CaseEntry))
    (cid cust k c : String) :
    caseCustomer (caseIndexAdd ci cid cust k) c =
      if (lookupCI ci c).isSome then caseCustomer ci c
      else if c = cid then some cust else none := by
  unfold caseIndexAdd
  by_cases h : (lookupCI ci cid).isNone
  · rw [if_pos h, caseCustomer_ciAppendKey, caseCustomer_append_single]
  · rw [if_neg h, caseCustomer_ciAppendKey]
    by_cases h2 : (lookupCI ci c).isSome
    · rw [if_pos h2]
    · rw [if_neg h2]
      have hcc : caseCustomer ci c = none := by
        rw [Option.not_isSome_iff_eq_none] at h2
        simp [caseCustomer, h2]
      have hne : ¬(c = cid) := by
        intro e
        subst e
        rw [Option.not_isSome_iff_eq_none] at h2
        simp [h2] at h
      rw [hcc, if_neg hne]

theorem processTicket_case_index (name : String) (idx : GlobalIndex)
    (t : CustomerTicket) :
    (processTicket name idx t).case_index =
      if t.caseID ≠ "XXXXXXX" then caseIndexAdd idx.case_index t.caseID name t.key
      else idx.case_index := by
  by_cases h : t.caseID = "XXXXXXX" <;> simp [processTicket, h]

theorem processTicket_customers (name : String) (idx : GlobalIndex)
    (t : CustomerTicket) :
    (processTicket name idx t).customers =
      customersAppendTicket idx.customers name
        { key := t.key, title := t.title, caseID := t.caseID } := by
  by_cases h : t.caseID = "XXXXXXX" <;> simp [processTicket, h]

theorem processTicket_total_tickets (name : String) (idx : GlobalIndex)
    (t : CustomerTicket) :
    (processTicket name idx t).total_tickets = idx.total_tickets := by
  by_cases h : t.caseID = "XXXXXXX" <;> simp [processTicket, h]

theorem caseCustomer_processTicket (name c : String) (idx : GlobalIndex)
    (t : CustomerTicket) :
    caseCustomer (processTicket name idx t).case_index c =
      if (lookupCI idx.case_index c).isSome then caseCustomer idx.case_index c
      else if c = t.caseID ∧ t.caseID ≠ "XXXXXXX" then some name else none := by
  rw [processTicket_case_index]
  by_cases h : t.caseID ≠ "XXXXXXX"
  · rw [if_pos h, caseCustomer_caseIndexAdd]
    by_cases h2 : (lookupCI idx.case_index c).isSome
    · rw [if_pos h2, if_pos h2]
    · rw [if_neg h2, if_neg h2]
      by_cases h3 : c = t.caseID
      · rw [if_pos h3, if_pos ⟨h3, h⟩]
      · rw [if_neg h3, if_neg (fun hx : _ ∧ _ => h3 hx.1)]
  · rw [if_neg h]
    by_cases h2 : (lookupCI idx.case_index c).isSome
    · rw [if_pos h2]
    · rw [if_neg h2, if_neg (fun hx : _ ∧ _ => h hx.2)]
      rw [Option.not_isSome_iff_eq_none] at h2
      simp [caseCustomer, h2]

theorem caseCustomer_processTickets (name c : String) (hc : c ≠ "XXXXXXX") :
    ∀ (ts : List CustomerTicket) (idx : GlobalIndex),
      caseCustomer (processTickets name idx ts).case_index c =
        if (lookupCI idx.case_index c).isSome then caseCustomer idx.case_index c
        else if hasCase ts c then some name else none := by
  intro ts
  induction ts with
  | nil =>
    intro idx
    show caseCustomer idx.case_index c = _
    by_cases h2 : (lookupCI idx.case_index c).isSome
    · rw [if_pos h2]
    · rw [if_neg h2]
      rw [Option.not_isSome_iff_eq_none] at h2
      simp [caseCustomer, h2, hasCase]
  | cons t ts ih =>
    intro idx
    show caseCustomer (processTickets name (processTicket name idx t) ts).case_index c = _
    rw [ih]
    by_cases h2 : (lookupCI idx.case_index c).isSome
    · have hpc : caseCustomer (processTicket name idx t).case_index c =
          caseCustomer idx.case_index c := by
        rw [caseCustomer_processTicket, if_pos h2]
      have hps : (lookupCI (processTicket name idx t).case_index c).isSome := by
        rw [← isSome_caseCustomer, hpc, isSome_caseCustomer]
        exact h2
      rw [if_pos hps, hpc, if_pos h2]
    · by_cases h3 : c = t.caseID
      · have hneq : t.caseID ≠ "XXXXXXX" := h3 ▸ hc
        have hpc : caseCustomer (processTicket name idx t).case_index c = some name := by
          rw [caseCustomer_processTicket, if_neg h2, if_pos ⟨h3, hneq⟩]
        have hps : (lookupCI (processTicket name idx t).case_index c).isSome := by
          rw [← isSome_caseCustomer, hpc]
          rfl
        have hhc : hasCase (t :: ts) c = true := by
          simp [hasCase]
          exact Or.inl h3.symm
        rw [if_pos hps, hpc, if_neg h2, if_pos hhc]
      · have hpc : caseCustomer (processTicket name idx t).case_index c = none := by
          rw [caseCustomer_processTicket, if_neg h2, if_neg (fun hx : _ ∧ _ => h3 hx.1)]
        have hps : ¬(lookupCI (processTicket name idx t).case_index c).isSome := by
          rw [← isSome_caseCustomer, hpc]
          simp
        have hhc : hasCase (t :: ts) c = hasCase ts c := by
          simp [hasCase]
          intro e
          exact absurd e.symm h3
        rw [if_neg hps, if_neg h2, hhc]

theorem firstCaseCustomer_cons (f : StoredFile) (fs : List StoredFile) (c : String) :
    firstCaseCustomer (f :: fs) c =
      match firstCaseCustomer [f] c with
      | some u => some u
      | none => firstCaseCustomer fs c := by
  cases f with
  | corrupt => simp [firstCaseCustomer]
  | valid cd => by_cases h : hasCase cd.tickets c <;> simp [firstCaseCustomer, h]

theorem caseCustomer_processFile (c : String) (hc : c ≠ "XXXXXXX")
    (idx : GlobalIndex) (f : StoredFile) :
    caseCustomer (processFile idx f).case_index c =
      if (lookupCI idx.case_index c).isSome then caseCustomer idx.case_index c
      else firstCaseCustomer [f] c := by
  cases f with
  | corrupt =>
    show caseCustomer idx.case_index c = _
    by_cases h2 : (lookupCI idx.case_index c).isSome
    · rw [if_pos h2]
    · rw [if_neg h2]
      rw [Option.not_isSome_iff_eq_none] at h2
      simp [caseCustomer, h2, firstCaseCustomer]
  | valid cd =>
    show caseCustomer (processTickets cd.customer
      ({ idx with customers := customersSet idx.customers cd.customer (freshCustomerEntry cd) })
      cd.tickets).case_index c = _
    rw [caseCustomer_processTickets cd.customer c hc]
    by_cases h2 : (lookupCI idx.case_index c).isSome
    · simp only [if_pos h2]
    · simp only [if_neg h2]
      by_cases h3 : hasCase cd.tickets c <;> simp [firstCaseCustomer, h3]

theorem caseCustomer_processFiles (c : String) (hc : c ≠ "XXXXXXX") :
    ∀ (files : List StoredFile) (idx : GlobalIndex),
      caseCustomer (processFiles idx files).case_index c =
        if (lookupCI idx.case_index c).isSome then caseCustomer idx.case_index c
        else firstCaseCustomer files c := by
  intro files
  induction files with
  | nil =>
    intro idx
    show caseCustomer idx.case_index c = _
    by_cases h2 : (lookupCI idx.case_index c).isSome
    · rw [if_pos h2]
    · rw [if_neg h2]
      rw [Option.not_isSome_iff_eq_none] at h2
      simp [caseCustomer, h2, firstCaseCustomer]
  | cons f fs ih =>
    intro idx
    show caseCustomer (processFiles (processFile idx f) fs).case_index c = _
    rw [ih]
    by_cases h2 : (lookupCI idx.case_index c).isSome
    · have hpc : caseCustomer (processFile idx f).case_index c =
          caseCustomer idx.case_index c := by
        rw [caseCustomer_processFile c hc idx f, if_pos h2]
      have hps : (lookupCI (processFile idx f).case_index c).isSome := by
        rw [← isSome_caseCustomer, hpc, isSome_caseCustomer]
        exact h2
      rw [if_pos hps, hpc, if_pos h2]
    · have hpc : caseCustomer (processFile idx f).case_index c =
          firstCaseCustomer [f] c := by
        rw [caseCustomer_processFile c hc idx f, if_neg h2]
      cases hf : firstCaseCustomer [f] c with
      | some u =>
        have hps : (lookupCI (processFile idx f).case_index c).isSome := by
          rw [← isSome_caseCustomer, hpc, hf]
          rfl
        rw [if_pos hps, hpc, hf, if_neg h2, firstCaseCustomer_cons]
        simp [hf]
      | none =>
        have hps : ¬(lookupCI (processFile idx f).case_index c).isSome := by
          rw [← isSome_caseCustomer, hpc, hf]
          simp
        rw [if_neg hps, if_neg h2, firstCaseCustomer_cons]
        simp [hf]

theorem total_tickets_processTickets (name : String) :
    ∀ (ts : List CustomerTicket) (idx : GlobalIndex),
      (processTickets name idx ts).total_tickets = idx.total_tickets := by
  intro ts
  induction ts with
  | nil => intro idx; rfl
  | cons t ts ih =>
    intro idx
    show (processTickets name (processTicket name idx t) ts).total_tickets = _
    rw [ih, processTicket_total_tickets]

theorem scannedTicketCount_cons (f : StoredFile) (fs : List StoredFile) :
    scannedTicketCount (f :: fs) = scannedTicketCount [f] + scannedTicketCount fs := by
  cases f <;> simp [scannedTicketCount]

theorem total_tickets_processFile (idx : GlobalIndex) (f : StoredFile) :
    (processFile idx f).total_tickets = idx.total_tickets + scannedTicketCount [f] := by
  cases f with
  | corrupt => simp [processFile, scannedTicketCount]
  | valid cd =>
    show (processTickets cd.customer
      ({ idx with customers := customersSet idx.customers cd.customer (freshCustomerEntry cd) })
      cd.tickets).total_tickets + (cd.tickets.length : Int) = _
    rw [total_tickets_processTickets]
    simp [scannedTicketCount]

theorem total_tickets_processFiles :
    ∀ (files : List StoredFile) (idx : GlobalIndex),
      (processFiles idx files).total_tickets =
        idx.total_tickets + scannedTicketCount files := by
  intro files
  induction files with
  | nil => intro idx; simp [processFiles, scannedTicketCount]
  | cons f fs ih =>
    intro idx
    show (processFiles (processFile idx f) fs).total_tickets = _
    rw [ih, total_tickets_processFile]
    cases f with
    | corrupt => simp [scannedTicketCount]
    | valid cd => simp [scannedTicketCount]; ring

theorem ciAppendKey_keys (cid k : String) :
    ∀ ci, (∀ p ∈ ci, p.1 ≠ "XXXXXXX") →
      ∀ p ∈ ciAppendKey ci cid k, p.1 ≠ "XXXXXXX" := by
  intro ci
  induction ci with
  | nil => intro _ p hp; cases hp
  | cons p0 ps ih =>
    intro h p hp
    unfold ciAppendKey at hp
    split at hp
    · rcases List.mem_cons.mp hp with rfl | hp
      · exact h p0 (List.mem_cons_self _ _)
      · exact h p (List.mem_cons_of_mem _ hp)
    · rcases List.mem_cons.mp hp with rfl | hp
      · exact h p (List.mem_cons_self _ _)
      · exact ih (fun q hq => h q (List.mem_cons_of_mem _ hq)) p hp

theorem caseIndexAdd_keys {ci : List (String × CaseEntry)} {cid : String}
    (cust k : String)
    (h : ∀ p ∈ ci, p.1 ≠ "XXXXXXX") (hcid : cid ≠ "XXXXXXX") :
    ∀ p ∈ caseIndexAdd ci cid cust k, p.1 ≠ "XXXXXXX" := by
  unfold caseIndexAdd
  apply ciAppendKey_keys
  split
  · intro p hp
    rcases List.mem_append.mp hp with hp | hp
    · exact h p hp
    · rcases List.mem_singleton.mp hp with rfl
      exact hcid
  · exact h

theorem processTicket_keys (name : String) {idx : GlobalIndex} (t : CustomerTicket)
    (h : ∀ p ∈ idx.case_index, p.1 ≠ "XXXXXXX") :
    ∀ p ∈ (processTicket name idx t).case_index, p.1 ≠ "XXXXXXX" := by
  intro p hp
  rw [processTicket_case_index] at hp
  by_cases ht : t.caseID ≠ "XXXXXXX"
  · rw [if_pos ht] at hp
    exact caseIndexAdd_keys name t.key h ht p hp
  · rw [if_neg ht] at hp
    exact h p hp

theorem processTickets_keys (name : String) :
    ∀ (ts : List CustomerTicket) (idx : GlobalIndex),
      (∀ p ∈ idx.case_index, p.1 ≠ "XXXXXXX") →
      ∀ p ∈ (processTickets name idx ts).case_index, p.1 ≠ "XXXXXXX" := by
  intro ts
  induction ts with
  | nil => intro idx h; exact h
  | cons t ts ih =>
    intro idx h
    exact ih (processTicket name idx t) (processTicket_keys name t h)

theorem processFile_keys {idx : GlobalIndex} (f : StoredFile)
    (h : ∀ p ∈ idx.case_index, p.1 ≠ "XXXXXXX") :
    ∀ p ∈ (processFile idx f).case_index, p.1 ≠ "XXXXXXX" := by
  cases f with
  | corrupt => exact h
  | valid cd => exact processTickets_keys cd.customer cd.tickets _ h

theorem processFiles_keys :
    ∀ (files : List StoredFile) (idx : GlobalIndex),
      (∀ p ∈ idx.case_index, p.1 ≠ "XXXXXXX") →
      ∀ p ∈ (processFiles idx files).case_index, p.1 ≠ "XXXXXXX" := by
  intro files
  induction files with
  | nil => intro idx h; exact h
  | cons f fs ih =>
    intro idx h
    exact ih (processFile idx f) (processFile_keys f h)

theorem processTickets_case_index_sentinel (name : String) :
    ∀ (ts : List CustomerTicket) (idx : GlobalIndex),
      (∀ t ∈ ts, t.caseID = "XXXXXXX") →
      (processTickets name idx ts).case_index = idx.case_index := by
  intro ts
  induction ts with
  | nil => intro idx _; rfl
  | cons t ts ih =>
    intro idx h
    show (processTickets name (processTicket name idx t) ts).case_index = _
    rw [ih _ (fun t' ht' => h t' (List.mem_cons_of_mem _ ht'))]
    rw [processTicket_case_index,
      if_neg (fun hx => hx (h t (List.mem_cons_self _ _)))]

theorem processFiles_case_index_sentinel :
    ∀ (files : List StoredFile) (idx : GlobalIndex),
      (∀ cd, StoredFile.valid cd ∈ files → ∀ t ∈ cd.tickets, t.caseID = "XXXXXXX") →
      (processFiles idx files).case_index = idx.case_index := by
  intro files
  induction files with
  | nil => intro idx _; rfl
  | cons f fs ih =>
    intro idx h
    show (processFiles (processFile idx f) fs).case_index = _
    rw [ih _ (fun cd hcd => h cd (List.mem_cons_of_mem _ hcd))]
    cases f with
    | corrupt => rfl
    | valid cd =>
      exact processTickets_case_index_sentinel cd.customer cd.tickets _
        (h cd (List.mem_cons_self _ _))

/-! ### Claim C1 -/

/-- Claim C1 counterexample: scanning customer `A` (first) and `B` (last),
both holding a ticket with case ID `CASE-1`, leaves the case entry's
`customer` equal to `"A"` — the record scanned first — not `"B"`, the
record scanned last as the claim states. -/
theorem C1_counterexample :
    caseCustomer (rebuild_index "t" c1files).case_index "CASE-1" = some "A" ∧
    caseCustomer (rebuild_index "t" c1files).case_index "CASE-1" ≠ some "B" := by
  exact ⟨by decide, by decide⟩

/-- Claim C1 (amended): during rebuild, the `case_index` entry for any
non-sentinel case ID carries the customer name of the record scanned
FIRST among those containing that case ID; later records' customer
names never overwrite it (their ticket keys are still appended). -/
theorem C1_first_scan_owner (now : String) (files : List StoredFile)
    (c : String) (hc : c ≠ "XXXXXXX") :
    caseCustomer (rebuild_index now files).case_index c =
      firstCaseCustomer files c := by
  show caseCustomer (processFiles (emptyIndex now) files).case_index c = _
  rw [caseCustomer_processFiles c hc]
  simp [emptyIndex, lookupCI, caseCustomer]

/-- Witness for `C1_first_scan_owner` at the two-customer input. -/
theorem C1_witness :
    "CASE-1" ≠ "XXXXXXX" ∧
    caseCustomer (rebuild_index "t" c1files).case_index "CASE-1" =
      firstCaseCustomer c1files "CASE-1" :=
  ⟨by decide, C1_first_scan_owner "t" c1files "CASE-1" (by decide)⟩

/-! ### Claim C2 -/

/-- Claim C2 counterexample: `update_customer_notes` does not recompute
the counters — applied to a stored record whose persisted `total_tickets`
is 1 while `tickets` is empty, it saves `total_tickets = 1 ≠ 0`; and
`add_ticket_comment` does not recompute `total_tickets` — applied to a
record whose persisted `total_tickets` is 5 while it holds one ticket,
it saves `total_tickets = 5 ≠ 1`. -/
theorem C2_counterexample :
    (update_customer_notes "t1" "n" staleRec).total_tickets = 1 ∧
    ((update_customer_notes "t1" "n" staleRec).tickets.length : Int) = 0 ∧
    (update_customer_notes "t1" "n" staleRec).total_tickets ≠
      ((update_customer_notes "t1" "n" staleRec).tickets.length : Int) ∧
    (add_ticket_comment "t1" "K-1" "x" staleRec2).map CustomerData.total_tickets =
      some 5 ∧
    (add_ticket_comment "t1" "K-1" "x" staleRec2).map
      (fun r => (r.tickets.length : Int)) = some 1 := by
  exact ⟨by decide, by decide, by decide, by decide, by decide⟩

/-- Claim C2 (amended): add-tickets and remove-tickets recompute
`total_tickets` as `len(tickets)` and `total_comments` as the summed
comment counts; add-comment recomputes only `total_comments`, leaving
`total_tickets` as loaded; update-notes recomputes neither counter; all
four set `last_updated` to the current time on the record they save. -/
theorem C2_counters_per_operation (fetchTitle : String → String) (now : String)
    (ks : List String) (n : Option String) (cd : CustomerData)
    (nn k c : String) :
    ((add_customer_tickets fetchTitle now ks n cd).total_tickets =
        ((add_customer_tickets fetchTitle now ks n cd).tickets.length : Int) ∧
      (add_customer_tickets fetchTitle now ks n cd).total_comments =
        sumComments (add_customer_tickets fetchTitle now ks n cd).tickets ∧
      (add_customer_tickets fetchTitle now ks n cd).last_updated = now) ∧
    ((remove_customer_tickets now ks cd).total_tickets =
        ((remove_customer_tickets now ks cd).tickets.length : Int) ∧
      (remove_customer_tickets now ks cd).total_comments =
        sumComments (remove_customer_tickets now ks cd).tickets ∧
      (remove_customer_tickets now ks cd).last_updated = now) ∧
    ((update_customer_notes now nn cd).total_tickets = cd.total_tickets ∧
      (update_customer_notes now nn cd).total_comments = cd.total_comments ∧
      (update_customer_notes now nn cd).tickets = cd.tickets ∧
      (update_customer_notes now nn cd).notes = nn ∧
      (update_customer_notes now nn cd).last_updated = now) ∧
    (∀ cd', add_ticket_comment now k c cd = some cd' →
      cd'.total_comments = sumComments cd'.tickets ∧
      cd'.total_tickets = cd.total_tickets ∧
      cd'.last_updated = now) := by
  refine ⟨⟨rfl, rfl, rfl⟩, ⟨rfl, rfl, rfl⟩, ⟨rfl, rfl, rfl, rfl, rfl⟩, ?_⟩
  intro cd' h
  rw [add_ticket_comment_inv h]
  exact ⟨rfl, rfl, rfl⟩

/-- The record produced by commenting `K-1` on `oneTicketRec`. -/
def commentedRec : CustomerData :=
  { customer := "Acme",
    tickets := [{ key := "K-1", title := "", caseID := "XXXXXXX",
                  added_date := "t0",
                  comments := [{ comment := "hi", timestamp := "t1" }] }],
    ticket_keys := ["K-1"], notes := "", last_updated := "t1",
    total_tickets := 1, total_comments := 1 }

/-- Witness for `C2_counters_per_operation`: the add-comment implication
discharged at a concrete successful comment-add. -/
theorem C2_witness :
    commentedRec.total_comments = sumComments commentedRec.tickets ∧
    commentedRec.total_tickets = oneTicketRec.total_tickets ∧
    commentedRec.last_updated = "t1" :=
  (C2_counters_per_operation (fun _ => "") "t1" [] none oneTicketRec "n" "K-1" "hi").2.2.2
    commentedRec (by decide)

/-! ### Claim C3 -/

/-- Claim C3 (confirmed): adding the same ticket key twice — within one
request (`[k, k]`) or by a second add-tickets call — yields the same
`tickets` and `ticket_keys` content as adding it once, and
`total_tickets` is unchanged by the repeat. -/
theorem C3_idempotent_add (f₁ f₂ : String → String) (now₁ now₂ : String)
    (n₁ n₂ : Option String) (k : String) (cd : CustomerData) :
    ((add_customer_tickets f₁ now₁ [k, k] n₁ cd).tickets =
        (add_customer_tickets f₁ now₁ [k] n₁ cd).tickets ∧
      (add_customer_tickets f₁ now₁ [k, k] n₁ cd).ticket_keys =
        (add_customer_tickets f₁ now₁ [k] n₁ cd).ticket_keys ∧
      (add_customer_tickets f₁ now₁ [k, k] n₁ cd).total_tickets =
        (add_customer_tickets f₁ now₁ [k] n₁ cd).total_tickets) ∧
    ((add_customer_tickets f₂ now₂ [k] n₂ (add_customer_tickets f₁ now₁ [k] n₁ cd)).tickets =
        (add_customer_tickets f₁ now₁ [k] n₁ cd).tickets ∧
      (add_customer_tickets f₂ now₂ [k] n₂ (add_customer_tickets f₁ now₁ [k] n₁ cd)).ticket_keys =
        (add_customer_tickets f₁ now₁ [k] n₁ cd).ticket_keys ∧
      (add_customer_tickets f₂ now₂ [k] n₂ (add_customer_tickets f₁ now₁ [k] n₁ cd)).total_tickets =
        (add_customer_tickets f₁ now₁ [k] n₁ cd).total_tickets) := by
  have hdup : add_customer_tickets f₁ now₁ [k, k] n₁ cd =
      add_customer_tickets f₁ now₁ [k] n₁ cd := by
    unfold add_customer_tickets
    rw [addTicketsLoop_dup]
  have hmem : k ∈ (add_customer_tickets f₁ now₁ [k] n₁ cd).ticket_keys := by
    show k ∈ (applyNotes n₁ (addTicketsLoop f₁ now₁ [k] cd)).ticket_keys
    rw [applyNotes_ticket_keys]
    exact mem_addTicketsLoop_single f₁ now₁ k cd
  have hskip : addTicketsLoop f₂ now₂ [k] (add_customer_tickets f₁ now₁ [k] n₁ cd) =
      add_customer_tickets f₁ now₁ [k] n₁ cd :=
    addTicketsLoop_skip f₂ now₂ k hmem
  refine ⟨by rw [hdup]; exact ⟨rfl, rfl, rfl⟩, ?_, ?_, ?_⟩
  · show (applyNotes n₂ (addTicketsLoop f₂ now₂ [k]
      (add_customer_tickets f₁ now₁ [k] n₁ cd))).tickets = _
    rw [applyNotes_tickets, hskip]
  · show (applyNotes n₂ (addTicketsLoop f₂ now₂ [k]
      (add_customer_tickets f₁ now₁ [k] n₁ cd))).ticket_keys = _
    rw [applyNotes_ticket_keys, hskip]
  · show ((applyNotes n₂ (addTicketsLoop f₂ now₂ [k]
      (add_customer_tickets f₁ now₁ [k] n₁ cd))).tickets.length : Int) = _
    rw [applyNotes_tickets, hskip]
    exact (add_customer_tickets_total f₁ now₁ [k] n₁ cd).symm

/-! ### Claim C4 -/

/-- Claim C4 (confirmed): every record reachable from a fresh empty
record by façade mutations satisfies, at rest, `total_tickets =
len(tickets)` and `total_comments = sum(len(t.comments))`. -/
theorem C4_counter_invariant (ops : List FacadeOp) (customer_name now : String) :
    counterInv (applyOps ops (emptyRecord customer_name now)) :=
  counterInv_applyOps ops _ ⟨rfl, rfl⟩

/-! ### Claim C5 -/

/-- Claim C5 counterexample: two scanned files both naming customer `A`
(one with one ticket, one with none): the rebuilt index has
`total_tickets = 1` but the per-customer counts stored in `customers`
sum to 0, so the two quantities differ. -/
theorem C5_counterexample :
    (rebuild_index "t" dupFiles).total_tickets = 1 ∧
    sumEntryCounts (rebuild_index "t" dupFiles).customers = 0 ∧
    (rebuild_index "t" dupFiles).total_tickets ≠
      sumEntryCounts (rebuild_index "t" dupFiles).customers := by
  exact ⟨by decide, by decide, by decide⟩

/-- Claim C5 (amended): after rebuild, `total_customers` equals the
number of entries in the `customers` mapping, and `total_tickets` equals
the sum of the ticket counts of all successfully scanned records — which
exceeds the per-customer-entry sum when two files share a customer name. -/
theorem C5_totals (now : String) (files : List StoredFile) :
    (rebuild_index now files).total_customers =
      ((rebuild_index now files).customers.length : Int) ∧
    (rebuild_index now files).total_tickets = scannedTicketCount files := by
  constructor
  · rfl
  · show (processFiles (emptyIndex now) files).total_tickets = _
    rw [total_tickets_processFiles]
    simp [emptyIndex]

/-! ### Claim C6 -/

/-- Claim C6 (confirmed): the sentinel `"XXXXXXX"` is never a key of
`case_index` in any rebuilt index. -/
theorem C6_no_sentinel_key (now : String) (files : List StoredFile)
    (p : String × CaseEntry) (hp : p ∈ (rebuild_index now files).case_index) :
    p.1 ≠ "XXXXXXX" := by
  have e : (rebuild_index now files).case_index =
      (processFiles (emptyIndex now) files).case_index := rfl
  rw [e] at hp
  refine processFiles_keys files (emptyIndex now) ?_ p hp
  intro q hq
  simp [emptyIndex] at hq

/-- Witness for `C6_no_sentinel_key` at the two-customer input. -/
theorem C6_witness :
    ("CASE-1", ({ customer := "A", tickets := ["T1", "T2"] } : CaseEntry)) ∈
      (rebuild_index "t" c1files).case_index ∧
    ("CASE-1" : String) ≠ "XXXXXXX" :=
  ⟨by decide,
   C6_no_sentinel_key "t" c1files
     ("CASE-1", ({ customer := "A", tickets := ["T1", "T2"] } : CaseEntry))
     (by decide)⟩

/-! ### Claim C7 -/

/-- Claim C7 (confirmed): add-comment with an absent ticket key returns
the not-found signal and leaves the store exactly unchanged (nothing is
saved); with the key present it succeeds, saving a record with the same
number of tickets and exactly one more comment. -/
theorem C7_add_comment_contract (store : Store) (now customer_name k c : String) :
    ((∀ t ∈ (load_customer_data store now customer_name).tickets, t.key ≠ k) →
      api_add_ticket_comment now customer_name k c store = (none, store)) ∧
    ((∃ t ∈ (load_customer_data store now customer_name).tickets, t.key = k) →
      ∃ cd', api_add_ticket_comment now customer_name k c store =
          (some cd', saveStore store cd') ∧
        cd'.tickets.length = (load_customer_data store now customer_name).tickets.length ∧
        sumComments cd'.tickets =
          sumComments (load_customer_data store now customer_name).tickets + 1) := by
  constructor
  · intro h
    unfold api_add_ticket_comment
    rw [add_ticket_comment_none h]
  · intro h
    refine ⟨{ load_customer_data store now customer_name with
        tickets := appendCommentFirst k { comment := c, timestamp := now }
          (load_customer_data store now customer_name).tickets,
        total_comments := sumComments (appendCommentFirst k { comment := c, timestamp := now }
          (load_customer_data store now customer_name).tickets),
        last_updated := now }, ?_, ?_, ?_⟩
    · unfold api_add_ticket_comment
      rw [add_ticket_comment_isSome now k c _ h]
    · show (appendCommentFirst k { comment := c, timestamp := now }
        (load_customer_data store now customer_name).tickets).length = _
      rw [appendCommentFirst_length]
    · show sumComments (appendCommentFirst k { comment := c, timestamp := now }
        (load_customer_data store now customer_name).tickets) = _
      exact sumComments_appendCommentFirst k _ _ h

/-- Witness for `C7_add_comment_contract`: commenting a missing key on an
empty storage directory returns not-found and the unchanged store. -/
theorem C7_witness :
    api_add_ticket_comment "t1" "Acme" "K-404" "x" emptyStore = (none, emptyStore) :=
  (C7_add_comment_contract emptyStore "t1" "Acme" "K-404" "x").1
    (by
      intro t ht
      rw [show (load_customer_data emptyStore "t1" "Acme").tickets = [] from rfl] at ht
      cases ht)

/-! ### Claim C8 -/

/-- Claim C8 (confirmed): `load_customer_data` always returns — for any
store contents it yields either the stored parsed record, or a fresh
empty record carrying the requested customer name, the current
timestamp, and zero counters (missing and corrupt files alike). -/
theorem C8_load_total (store : Store) (now customer_name : String) :
    (∃ cd, store (safeName customer_name) = some (StoredFile.valid cd) ∧
      load_customer_data store now customer_name = cd) ∨
    load_customer_data store now customer_name =
      ({ customer := customer_name, tickets := [], ticket_keys := [], notes := "",
         last_updated := now, total_tickets := 0, total_comments := 0 } : CustomerData) := by
  unfold load_customer_data
  cases h : store (safeName customer_name) with
  | none => exact Or.inr rfl
  | some sf =>
    cases sf with
    | valid cd => exact Or.inl ⟨cd, rfl, rfl⟩
    | corrupt => exact Or.inr rfl

/-! ### Claim C9 -/

/-- Claim C9 (confirmed): tickets created through the façade always carry
the sentinel case ID `"XXXXXXX"` (no façade mutation assigns any other
value), so a rebuild over records produced only by façade mutations
yields an empty `case_index`. -/
theorem C9_facade_sentinel (records : List CustomerData) (now : String)
    (h : ∀ cd ∈ records, Reachable cd) :
    (∀ cd ∈ records, ∀ t ∈ cd.tickets, t.caseID = "XXXXXXX") ∧
    (rebuild_index now (records.map StoredFile.valid)).case_index = [] := by
  have hs : ∀ cd ∈ records, ∀ t ∈ cd.tickets, t.caseID = "XXXXXXX" :=
    fun cd hcd => reachable_sentinel (h cd hcd)
  refine ⟨hs, ?_⟩
  show (processFiles (emptyIndex now) (records.map StoredFile.valid)).case_index = _
  rw [processFiles_case_index_sentinel]
  · rfl
  · intro cd hcd t ht
    rcases List.mem_map.mp hcd with ⟨cd0, hcd0, heq⟩
    cases heq
    exact hs _ hcd0 t ht

/-- Witness for `C9_facade_sentinel` at a singleton list holding a record
built by one façade add-tickets call. -/
theorem C9_witness :
    (∀ cd ∈ [sampleReach], ∀ t ∈ cd.tickets, t.caseID = "XXXXXXX") ∧
    (rebuild_index "t2" ([sampleReach].map StoredFile.valid)).case_index = [] :=
  C9_facade_sentinel [sampleReach] "t2"
    (by
      intro cd hcd
      rcases List.mem_singleton.mp hcd with rfl
      exact ⟨[FacadeOp.addTickets (fun _ => "") "t1" ["K-1"] none], "Acme", "t0", rfl⟩)

/-! ### Claim C10 -/

/-- Claim C10 (confirmed): the get-tickets read path returns the loaded
record and the storage directory exactly as received — no file is
created or overwritten — and on an unknown or corrupt customer it
returns the synthesized empty record. -/
theorem C10_get_is_pure_read (store : Store) (now customer_name : String) :
    (api_get_customer_tickets now customer_name store).2 = store ∧
    (api_get_customer_tickets now customer_name store).1 =
      load_customer_data store now customer_name ∧
    (store (safeName customer_name) = none →
      (api_get_customer_tickets now customer_name store).1 =
        emptyRecord customer_name now) ∧
    (store (safeName customer_name) = some StoredFile.corrupt →
      (api_get_customer_tickets now customer_name store).1 =
        emptyRecord customer_name now) := by
  refine ⟨rfl, rfl, ?_, ?_⟩
  · intro h
    show load_customer_data store now customer_name = _
    unfold load_customer_data
    rw [h]
  · intro h
    show load_customer_data store now customer_name = _
    unfold load_customer_data
    rw [h]

/-- Witness for `C10_get_is_pure_read` at the empty storage directory. -/
theorem C10_witness :
    (api_get_customer_tickets "t1" "Acme" emptyStore).1 = emptyRecord "Acme" "t1" ∧
    (api_get_customer_tickets "t1" "Acme" emptyStore).2 = emptyStore :=
  ⟨(C10_get_is_pure_read emptyStore "t1" "Acme").2.2.1 rfl,
   (C10_get_is_pure_read emptyStore "t1" "Acme").1⟩

end CustomerJira
